import Mathlib

/-!
Verification development for the JSBSim electric-motor model
(`src/models/propulsion/FGElectric.cpp`).

The per-timestep algorithm `FGElectric::Calculate` is embedded as a pure
function over ℚ.  Configuration and the persistent lag-filter state form the
`FGElectric` structure; the values read from the thruster and the simulation
loop each timestep form `CalcInputs`; the values produced (the saturated
commanded power handed to `Thruster->Calculate`, the published `HP`, and the
updated filter state) form `CalcOutputs`.

The C++ local variable `CmdPower` is read once (`CmdPower -= PowerReq`)
before its first assignment; the embedding makes that indeterminate initial
value an explicit argument `CmdPowerInit` so that independence from it can be
stated.  The C++ inner declaration `double PowerReqFilt;` inside the
`Tau > 0.0` block shadows the outer `PowerReqFilt`; the embedding reproduces
this with an inner `let` binding, so the final commanded-power formula sees
the outer, unfiltered value exactly as the compiled C++ does.
-/

/-- Unit-conversion constant: ft-lbs/sec per horsepower.  Modelled from the
spec: its defining header (the base-units header) is not under src; the value
550 is the conventional one and no claim depends on the exact value. -/
def hptoftlbssec : ℚ := 550

/-- Unit-conversion constant: horsepower per watt.  Modelled from the spec:
its defining header is not under src; 1/745.7 is the conventional value and no
claim depends on the exact value. -/
def wattstohp : ℚ := 10 / 7457

/-- Unit-conversion constant: rad/sec per RPM.  Modelled from the spec: its
defining header is not under src; the value approximates 2*pi/60 and no claim
depends on the exact value. -/
def rpmtoradpsec : ℚ := 314159 / 3000000

/-- Configuration and persistent state of the motor (`FGElectric` members):
`PowerMax` in watts, `MaxRPM` (0 selects power-command mode, positive selects
RPM-command mode), `Tau` the lag-filter time constant, and `FiltState` the
persistent filter state, zero-initialized by the constructor. -/
structure FGElectric where
  PowerMax : ℚ
  MaxRPM : ℚ
  Tau : ℚ
  FiltState : ℚ
deriving Repr, DecidableEq

/-- Per-timestep inputs read by `Calculate`: the normalized throttle command
`in.ThrottlePos[EngineNumber]`, the simulation timestep `in.TotalDeltaT`, and
the thruster feedback `GetPowerRequired()`, `GetRPM()`, `GetGearRatio()`,
`GetTorque()`. -/
structure CalcInputs where
  ThrottlePos : ℚ
  TotalDeltaT : ℚ
  PowerRequired : ℚ
  ThrusterRPM : ℚ
  GearRatio : ℚ
  Torque : ℚ
deriving Repr, DecidableEq

/-- Per-timestep outputs of `Calculate`: the saturated commanded power passed
to `Thruster->Calculate`, the published horsepower `HP`, and the updated
filter state. -/
structure CalcOutputs where
  CmdPower : ℚ
  HP : ℚ
  FiltState : ℚ
deriving Repr, DecidableEq

/-- `double dt = max(0.0001, in.TotalDeltaT);` (line 115, repeated at the two
filter sites). -/
def clampedDt (t : ℚ) : ℚ := max (1 / 10000) t

/-- The commanded RPM of RPM-command mode:
`CmdRPM = MaxRPM * Cmd; CmdRPM = min(CmdRPM, MaxRPM);`. -/
def cmdRPM (e : FGElectric) (i : CalcInputs) : ℚ :=
  min (e.MaxRPM * i.ThrottlePos) e.MaxRPM

/-- The actual-RPM value used in `DeltaRPM` of RPM-command mode:
`RPM = min(GetRPM()*GearRatio, MaxRPM)`, then replaced by the lag-filter
output `alpha*RPM + (1-alpha)*FiltState` when `Tau > 0`. -/
def actualRPM (e : FGElectric) (i : CalcInputs) : ℚ :=
  let RPM := min (i.ThrusterRPM * i.GearRatio) e.MaxRPM
  if 0 < e.Tau then
    let alpha := 1 / (1 + e.Tau / clampedDt i.TotalDeltaT)
    alpha * RPM + (1 - alpha) * e.FiltState
  else RPM

/-- The raw input fed to the lag filter this timestep: the clamped RPM
measurement in RPM-command mode, the required power in power-command mode. -/
def filterRaw (e : FGElectric) (i : CalcInputs) : ℚ :=
  if 0 < e.MaxRPM then min (i.ThrusterRPM * i.GearRatio) e.MaxRPM
  else i.PowerRequired

/-- The embedding of `FGElectric::Calculate` (lines 101-166).  `CmdPowerInit`
is the indeterminate value the uninitialized C++ local `CmdPower` holds at the
`CmdPower -= PowerReq;` statement. -/
def Calculate (e : FGElectric) (i : CalcInputs) (CmdPowerInit : ℚ) :
    CalcOutputs :=
  let PowerReq := i.PowerRequired
  let PowerMax_ftlbssec := e.PowerMax * wattstohp * hptoftlbssec
  let Cmd := i.ThrottlePos
  let CmdPower := CmdPowerInit
  if 0 < e.MaxRPM then
    let CmdRPM := e.MaxRPM * Cmd
    let CmdRPM := min CmdRPM e.MaxRPM
    let GearRatio := i.GearRatio
    let RPM := i.ThrusterRPM * GearRatio
    let RPM := min RPM e.MaxRPM
    -- `if (Tau > 0.0)`: first-order lag on the RPM measure; the pair carries
    -- (RPM after the block, FiltState after the block).
    let st :=
      if 0 < e.Tau then
        let dt := clampedDt i.TotalDeltaT
        let alpha := 1 / (1 + e.Tau / dt)
        let RPM := alpha * RPM + (1 - alpha) * e.FiltState
        (RPM, RPM)
      else (RPM, e.FiltState)
    let RPM := st.1
    let FiltState := st.2
    let DeltaRPM := CmdRPM - RPM
    let TorqueReq := |i.Torque| / GearRatio
    let CmdPower := TorqueReq * (DeltaRPM * rpmtoradpsec) + PowerReq
    let CmdPower := min CmdPower PowerMax_ftlbssec
    ⟨CmdPower, CmdPower / hptoftlbssec, FiltState⟩
  else
    let PowerReqFilt := PowerReq
    -- `if (Tau > 0.0)`: the C++ block declares an inner `double PowerReqFilt`
    -- shadowing the outer one, assigns the filter output to the inner name,
    -- stores it into FiltState, and decrements the still-uninitialized
    -- CmdPower.  The pair carries (FiltState after the block, CmdPower after
    -- the block); the outer PowerReqFilt is untouched.
    let st :=
      if 0 < e.Tau then
        let dt := clampedDt i.TotalDeltaT
        let alpha := 1 / (1 + e.Tau / dt)
        let PowerReqFiltInner := alpha * PowerReq + (1 - alpha) * e.FiltState
        (PowerReqFiltInner, CmdPower - PowerReq)
      else (e.FiltState, CmdPower)
    let FiltState := st.1
    let CmdPower := st.2
    let CmdPower := PowerMax_ftlbssec * Cmd + PowerReq - PowerReqFilt
    let CmdPower := min CmdPower PowerMax_ftlbssec
    ⟨CmdPower, CmdPower / hptoftlbssec, FiltState⟩

/-- The raw (pre-saturation) commanded power of `Calculate`: the value the
C++ local `CmdPower` holds immediately before
`CmdPower = min(CmdPower, PowerMax_ftlbssec);`. -/
def rawCmdPower (e : FGElectric) (i : CalcInputs) : ℚ :=
  if 0 < e.MaxRPM then
    (|i.Torque| / i.GearRatio) * ((cmdRPM e i - actualRPM e i) * rpmtoradpsec)
      + i.PowerRequired
  else
    e.PowerMax * wattstohp * hptoftlbssec * i.ThrottlePos
      + i.PowerRequired - i.PowerRequired

/-- Modelled from the spec: the raw commanded power of power-command mode as
the spec states it — `maxPower_converted * throttle + powerRequired` minus the
lag-filter output computed this timestep from (`powerRequired`, dt, tau), the
filter output being `powerRequired` itself when filtering is disabled. -/
def specPowerModeRawCmdPower (e : FGElectric) (i : CalcInputs) : ℚ :=
  let filtered :=
    if 0 < e.Tau then
      let alpha := 1 / (1 + e.Tau / clampedDt i.TotalDeltaT)
      alpha * i.PowerRequired + (1 - alpha) * e.FiltState
    else i.PowerRequired
  e.PowerMax * wattstohp * hptoftlbssec * i.ThrottlePos
    + i.PowerRequired - filtered

/-- The filter state after `n` successive calls of `Calculate` with the same
inputs, starting from the state recorded in `e`. -/
def filtIter (e : FGElectric) (i : CalcInputs) : ℕ → ℚ
  | 0 => e.FiltState
  | n + 1 =>
      (Calculate ⟨e.PowerMax, e.MaxRPM, e.Tau, filtIter e i n⟩ i 0).FiltState

/-- The embedding of `FGElectric::CalcFuelNeed` (lines 171-174):
`return 0;`. -/
def CalcFuelNeed (_e : FGElectric) : ℚ := 0

theorem clampedDt_pos (t : ℚ) : 0 < clampedDt t :=
  lt_of_lt_of_le (by norm_num) (le_max_left _ _)

theorem alpha_pos (tau t : ℚ) (ht : 0 < tau) :
    0 < 1 / (1 + tau / clampedDt t) := by
  have hd := clampedDt_pos t
  have : 0 < tau / clampedDt t := div_pos ht hd
  positivity

theorem alpha_lt_one (tau t : ℚ) (ht : 0 < tau) :
    1 / (1 + tau / clampedDt t) < 1 := by
  have hd := clampedDt_pos t
  have h : 0 < tau / clampedDt t := div_pos ht hd
  have h1 : (1 : ℚ) < 1 + tau / clampedDt t := by linarith
  calc 1 / (1 + tau / clampedDt t) < 1 / 1 :=
        one_div_lt_one_div_of_lt one_pos h1
    _ = 1 := by norm_num

theorem Calculate_cmdPower (e : FGElectric) (i : CalcInputs) (j : ℚ) :
    (Calculate e i j).CmdPower
      = min (rawCmdPower e i) (e.PowerMax * wattstohp * hptoftlbssec) := by
  by_cases hm : 0 < e.MaxRPM <;> by_cases ht : 0 < e.Tau <;>
    simp [Calculate, rawCmdPower, cmdRPM, actualRPM, hm, ht]

theorem Calculate_HP (e : FGElectric) (i : CalcInputs) (j : ℚ) :
    (Calculate e i j).HP = (Calculate e i j).CmdPower / hptoftlbssec := by
  by_cases hm : 0 < e.MaxRPM <;> by_cases ht : 0 < e.Tau <;>
    simp [Calculate, hm, ht]

theorem Calculate_filtState_pos (e : FGElectric) (i : CalcInputs) (j : ℚ)
    (ht : 0 < e.Tau) :
    (Calculate e i j).FiltState
      = (1 / (1 + e.Tau / clampedDt i.TotalDeltaT)) * filterRaw e i
        + (1 - 1 / (1 + e.Tau / clampedDt i.TotalDeltaT)) * e.FiltState := by
  by_cases hm : 0 < e.MaxRPM <;> simp [Calculate, filterRaw, hm, ht]

theorem Calculate_filtState_nonpos (e : FGElectric) (i : CalcInputs) (j : ℚ)
    (ht : e.Tau ≤ 0) :
    (Calculate e i j).FiltState = e.FiltState := by
  have ht' : ¬ 0 < e.Tau := not_lt.mpr ht
  by_cases hm : 0 < e.MaxRPM <;> simp [Calculate, hm, ht']

/-- Claim C3: in both modes and for every input, the commanded power emitted
by `Calculate` equals `min rawCmdPower maxPower_converted`; it never exceeds
the converted maximum power, and negative raw commanded power (with a
nonnegative configured maximum) passes through unchanged. -/
theorem c3_upper_saturation_only (e : FGElectric) (i : CalcInputs) (j : ℚ) :
    (Calculate e i j).CmdPower
        = min (rawCmdPower e i) (e.PowerMax * wattstohp * hptoftlbssec)
      ∧ (Calculate e i j).CmdPower ≤ e.PowerMax * wattstohp * hptoftlbssec
      ∧ (0 ≤ e.PowerMax → rawCmdPower e i < 0 →
          (Calculate e i j).CmdPower = rawCmdPower e i) := by
  refine ⟨Calculate_cmdPower e i j, ?_, ?_⟩
  · rw [Calculate_cmdPower]; exact min_le_right _ _
  · intro hp hneg
    rw [Calculate_cmdPower]
    have hmax : (0 : ℚ) ≤ e.PowerMax * wattstohp * hptoftlbssec := by
      have : (0 : ℚ) ≤ wattstohp := by norm_num [wattstohp]
      have : (0 : ℚ) ≤ e.PowerMax * wattstohp := mul_nonneg hp this
      have h550 : (0 : ℚ) ≤ hptoftlbssec := by norm_num [hptoftlbssec]
      exact mul_nonneg this h550
    exact min_eq_left (le_of_lt (lt_of_lt_of_le hneg hmax))

/-- Claim C3 witness: at a concrete input with negative raw commanded power,
the output equals the raw value, unclamped below. -/
theorem c3_upper_saturation_only_witness :
    (0 : ℚ) ≤ (7457 : ℚ)
      ∧ rawCmdPower ⟨7457, 0, 0, 0⟩ ⟨-1, 1, 0, 0, 1, 0⟩ < 0
      ∧ (Calculate ⟨7457, 0, 0, 0⟩ ⟨-1, 1, 0, 0, 1, 0⟩ 0).CmdPower
          = rawCmdPower ⟨7457, 0, 0, 0⟩ ⟨-1, 1, 0, 0, 1, 0⟩ :=
  ⟨by norm_num,
   by norm_num [rawCmdPower, wattstohp, hptoftlbssec],
   (c3_upper_saturation_only ⟨7457, 0, 0, 0⟩ ⟨-1, 1, 0, 0, 1, 0⟩ 0).2.2
     (by norm_num) (by norm_num [rawCmdPower, wattstohp, hptoftlbssec])⟩

/-- Claim C5: the lag-filter update of `Calculate`.  If `tau > 0` the new
`FiltState` is `alpha*raw + (1-alpha)*prev` with
`alpha = 1/(1 + tau/dt)` and `raw` the mode's feedback signal; if `tau ≤ 0`
the `FiltState` is left at its prior value, and in RPM-command mode the value
used downstream is the unfiltered (clamped) raw measurement. -/
theorem c5_lag_filter_update (e : FGElectric) (i : CalcInputs) (j : ℚ) :
    (0 < e.Tau →
        (Calculate e i j).FiltState
          = (1 / (1 + e.Tau / clampedDt i.TotalDeltaT)) * filterRaw e i
            + (1 - 1 / (1 + e.Tau / clampedDt i.TotalDeltaT)) * e.FiltState)
      ∧ (e.Tau ≤ 0 → (Calculate e i j).FiltState = e.FiltState)
      ∧ (e.Tau ≤ 0 →
          actualRPM e i = min (i.ThrusterRPM * i.GearRatio) e.MaxRPM) := by
  refine ⟨fun ht => Calculate_filtState_pos e i j ht,
    fun ht => Calculate_filtState_nonpos e i j ht, fun ht => ?_⟩
  have ht' : ¬ 0 < e.Tau := not_lt.mpr ht
  simp [actualRPM, ht']

/-- Claim C5 witness: a concrete filter step with tau = 1, dt = 1
(alpha = 1/2) in power-command mode, and the disabled case at tau = 0. -/
theorem c5_lag_filter_update_witness :
    ((0 : ℚ) < 1 →
        (Calculate ⟨0, 0, 1, 4⟩ ⟨0, 1, 2, 0, 1, 0⟩ 0).FiltState
          = (1 / (1 + 1 / clampedDt 1)) * filterRaw ⟨0, 0, 1, 4⟩ ⟨0, 1, 2, 0, 1, 0⟩
            + (1 - 1 / (1 + 1 / clampedDt 1)) * 4)
      ∧ ((1 : ℚ) ≤ 0 →
          (Calculate ⟨0, 0, 1, 4⟩ ⟨0, 1, 2, 0, 1, 0⟩ 0).FiltState = 4)
      ∧ ((1 : ℚ) ≤ 0 →
          actualRPM ⟨0, 0, 1, 4⟩ ⟨0, 1, 2, 0, 1, 0⟩ = min ((0 : ℚ) * 1) 0) :=
  c5_lag_filter_update ⟨0, 0, 1, 4⟩ ⟨0, 1, 2, 0, 1, 0⟩ 0

/-- Claim C8: for every input and both modes, the published `HP` equals the
saturated commanded power handed to the thruster, divided by the
ft-lbs/sec-per-horsepower factor, and multiplying back recovers it exactly. -/
theorem c8_hp_is_cmdpower_in_hp_units (e : FGElectric) (i : CalcInputs)
    (j : ℚ) :
    (Calculate e i j).HP = (Calculate e i j).CmdPower / hptoftlbssec
      ∧ (Calculate e i j).HP * hptoftlbssec = (Calculate e i j).CmdPower := by
  refine ⟨Calculate_HP e i j, ?_⟩
  rw [Calculate_HP]
  have h : (hptoftlbssec : ℚ) ≠ 0 := by norm_num [hptoftlbssec]
  field_simp

/-- Claim C9: in power-command mode with filtering enabled, the outputs of
`Calculate` are independent of the indeterminate value the uninitialized
local `CmdPower` holds at the `CmdPower -= PowerReq` statement: any two such
values give identical commanded power and HP. -/
theorem c9_uninitialized_cmdpower_irrelevant (e : FGElectric) (i : CalcInputs)
    (j1 j2 : ℚ) (hm : e.MaxRPM = 0) (ht : 0 < e.Tau) :
    (Calculate e i j1).CmdPower = (Calculate e i j2).CmdPower
      ∧ (Calculate e i j1).HP = (Calculate e i j2).HP := by
  have hm' : ¬ 0 < e.MaxRPM := by rw [hm]; exact lt_irrefl 0
  constructor <;> simp [Calculate, hm', ht]

/-- Claim C9 witness: two distinct junk values give the same outputs at a
concrete configuration and input. -/
theorem c9_uninitialized_cmdpower_irrelevant_witness :
    ((0 : ℚ) = 0 ∧ (0 : ℚ) < 1)
      ∧ (Calculate ⟨7457, 0, 1, 0⟩ ⟨1, 1, 2, 0, 1, 0⟩ 37).CmdPower
          = (Calculate ⟨7457, 0, 1, 0⟩ ⟨1, 1, 2, 0, 1, 0⟩ (-41)).CmdPower
      ∧ (Calculate ⟨7457, 0, 1, 0⟩ ⟨1, 1, 2, 0, 1, 0⟩ 37).HP
          = (Calculate ⟨7457, 0, 1, 0⟩ ⟨1, 1, 2, 0, 1, 0⟩ (-41)).HP :=
  ⟨⟨rfl, by norm_num⟩,
   (c9_uninitialized_cmdpower_irrelevant ⟨7457, 0, 1, 0⟩ ⟨1, 1, 2, 0, 1, 0⟩
     37 (-41) rfl (by norm_num)).1,
   (c9_uninitialized_cmdpower_irrelevant ⟨7457, 0, 1, 0⟩ ⟨1, 1, 2, 0, 1, 0⟩
     37 (-41) rfl (by norm_num)).2⟩

theorem clampedDt_one : clampedDt 1 = 1 := by
  rw [clampedDt]; exact max_eq_right (by norm_num)

/-- Claim C1 (code defect): at a concrete power-command input with filtering
enabled (`MaxRPM = 0`, `Tau = 1`, `FiltState = 0`, `PowerMax = 7457` W,
throttle 0, `TotalDeltaT = 1`, `PowerRequired = 2`), the lag-filter output is
1 and the spec formula `maxPower_converted*throttle + powerRequired -
filteredPowerRequired` gives 1, but `Calculate` produces commanded power 0:
the inner shadowing declaration of `PowerReqFilt` leaves the outer,
unfiltered value in the final formula, so the `powerRequired` terms cancel.
The filter state itself is nevertheless updated to the filtered value 1. -/
theorem c1_power_filter_shadowing :
    rawCmdPower ⟨7457, 0, 1, 0⟩ ⟨0, 1, 2, 0, 1, 0⟩ = 0
      ∧ specPowerModeRawCmdPower ⟨7457, 0, 1, 0⟩ ⟨0, 1, 2, 0, 1, 0⟩ = 1
      ∧ (Calculate ⟨7457, 0, 1, 0⟩ ⟨0, 1, 2, 0, 1, 0⟩ 0).CmdPower = 0
      ∧ (Calculate ⟨7457, 0, 1, 0⟩ ⟨0, 1, 2, 0, 1, 0⟩ 0).FiltState = 1 := by
  refine ⟨?_, ?_, ?_, ?_⟩ <;>
    norm_num [rawCmdPower, specPowerModeRawCmdPower, Calculate, clampedDt_one,
      wattstohp, hptoftlbssec, min_def]

/-- Claim C2 counterexample: with `MaxRPM = 0`, `Tau = 0`, `PowerMax = 7457` W
(so `maxPower_converted = 5500`), throttle 0 and `powerRequired = 5`, the
claimed value `min(maxPower_converted*throttle + powerRequired,
maxPower_converted) = 5` differs from the commanded power `Calculate`
produces, which is 0: the `powerRequired` term cancels exactly. -/
theorem c2_counterexample :
    ¬ ((Calculate ⟨7457, 0, 0, 0⟩ ⟨0, 1, 5, 0, 1, 0⟩ 0).CmdPower
        = min ((7457 : ℚ) * wattstohp * hptoftlbssec * 0 + 5)
            ((7457 : ℚ) * wattstohp * hptoftlbssec)) := by
  norm_num [Calculate, wattstohp, hptoftlbssec, min_def]

/-- Claim C2 (amended): with `maxRPM = 0` and `tau = 0`, the commanded power
equals `min(maxPower_converted*throttle, maxPower_converted)` — the
`powerRequired` term cancels against the unfiltered feed-forward subtraction —
the filter state is not mutated, and with zero throttle (and nonnegative
configured power) the commanded power is exactly 0. -/
theorem c2_power_mode_no_filter (e : FGElectric) (i : CalcInputs) (j : ℚ)
    (hm : e.MaxRPM = 0) (ht : e.Tau = 0) :
    (Calculate e i j).CmdPower
        = min (e.PowerMax * wattstohp * hptoftlbssec * i.ThrottlePos)
            (e.PowerMax * wattstohp * hptoftlbssec)
      ∧ (Calculate e i j).FiltState = e.FiltState
      ∧ (i.ThrottlePos = 0 → 0 ≤ e.PowerMax →
          (Calculate e i j).CmdPower = 0) := by
  have hm' : ¬ 0 < e.MaxRPM := by rw [hm]; exact lt_irrefl 0
  have ht' : ¬ 0 < e.Tau := by rw [ht]; exact lt_irrefl 0
  refine ⟨by simp [Calculate, hm', ht'], by simp [Calculate, hm', ht'], ?_⟩
  intro h0 hp
  have hM : (0 : ℚ) ≤ e.PowerMax * wattstohp * hptoftlbssec := by
    have h1 : (0 : ℚ) ≤ wattstohp := by norm_num [wattstohp]
    have h2 : (0 : ℚ) ≤ hptoftlbssec := by norm_num [hptoftlbssec]
    exact mul_nonneg (mul_nonneg hp h1) h2
  simp [Calculate, hm', ht', h0]
  exact hM

/-- Claim C2 witness: a concrete no-filter power-command configuration with
nonzero required power; zero throttle gives commanded power exactly 0 and the
filter state is untouched. -/
theorem c2_power_mode_no_filter_witness :
    ((0 : ℚ) = 0) ∧ ((0 : ℚ) = 0) ∧ ((0 : ℚ) ≤ 7457)
      ∧ (Calculate ⟨7457, 0, 0, 0⟩ ⟨0, 1, 3, 0, 1, 0⟩ 0).CmdPower = 0
      ∧ (Calculate ⟨7457, 0, 0, 0⟩ ⟨0, 1, 3, 0, 1, 0⟩ 0).FiltState = 0 :=
  ⟨rfl, rfl, by norm_num,
   (c2_power_mode_no_filter ⟨7457, 0, 0, 0⟩ ⟨0, 1, 3, 0, 1, 0⟩ 0 rfl rfl).2.2
     rfl (by norm_num),
   (c2_power_mode_no_filter ⟨7457, 0, 0, 0⟩ ⟨0, 1, 3, 0, 1, 0⟩ 0 rfl rfl).2.1⟩

/-- Claim C7: `dt` is floor-clamped to `max(0.0001, TotalDeltaT)`, so for
every input (including nonpositive `TotalDeltaT`) the clamped `dt` is
positive, the denominator `1 + tau/dt` of `alpha` is nonzero, and for
`tau > 0` the blend factor `alpha = 1/(1 + tau/dt)` lies strictly between 0
and 1. -/
theorem c7_dt_floor_clamp (t tau : ℚ) (ht : 0 < tau) :
    clampedDt t = max (1 / 10000) t
      ∧ (1 : ℚ) / 10000 ≤ clampedDt t
      ∧ 0 < clampedDt t
      ∧ clampedDt t ≠ 0
      ∧ 1 + tau / clampedDt t ≠ 0
      ∧ 0 < 1 / (1 + tau / clampedDt t)
      ∧ 1 / (1 + tau / clampedDt t) < 1 := by
  have hd := clampedDt_pos t
  have hq : 0 < tau / clampedDt t := div_pos ht hd
  exact ⟨rfl, le_max_left _ _, hd, ne_of_gt hd, ne_of_gt (by linarith),
    alpha_pos tau t ht, alpha_lt_one tau t ht⟩

/-- Claim C7 witness: at the concrete input `TotalDeltaT = -5 ≤ 0` and
`tau = 1`, the clamp yields dt = 1/10000 and alpha lies in (0,1). -/
theorem c7_dt_floor_clamp_witness :
    ((0 : ℚ) < 1)
      ∧ clampedDt (-5) = max (1 / 10000) (-5)
      ∧ 0 < clampedDt (-5)
      ∧ 1 + 1 / clampedDt (-5) ≠ 0
      ∧ 0 < 1 / (1 + 1 / clampedDt (-5))
      ∧ 1 / (1 + 1 / clampedDt (-5)) < 1 :=
  ⟨by norm_num,
   (c7_dt_floor_clamp (-5) 1 (by norm_num)).1,
   (c7_dt_floor_clamp (-5) 1 (by norm_num)).2.2.1,
   (c7_dt_floor_clamp (-5) 1 (by norm_num)).2.2.2.2.1,
   (c7_dt_floor_clamp (-5) 1 (by norm_num)).2.2.2.2.2.1,
   (c7_dt_floor_clamp (-5) 1 (by norm_num)).2.2.2.2.2.2⟩

/-- Claim C4: in RPM-command mode the raw commanded power is
`(|torque|/gearRatio) * ((cmdRPM - actualRPM) * rpmtoradpsec) + powerRequired`
with `cmdRPM = min(maxRPM*throttle, maxRPM)` and `actualRPM` the clamped
(optionally lag-filtered) measurement, and neither `cmdRPM` nor `actualRPM`
exceeds `maxRPM` — for any throttle and thruster feedback, given the filter
state invariant `FiltState ≤ maxRPM` (it holds initially, state starting at
0, and is preserved, as the last conjunct shows). -/
theorem c4_rpm_mode_clamped (e : FGElectric) (i : CalcInputs) (j : ℚ)
    (hm : 0 < e.MaxRPM) (hf : e.FiltState ≤ e.MaxRPM) :
    rawCmdPower e i
        = (|i.Torque| / i.GearRatio)
            * ((cmdRPM e i - actualRPM e i) * rpmtoradpsec) + i.PowerRequired
      ∧ cmdRPM e i = min (e.MaxRPM * i.ThrottlePos) e.MaxRPM
      ∧ cmdRPM e i ≤ e.MaxRPM
      ∧ actualRPM e i ≤ e.MaxRPM
      ∧ (Calculate e i j).FiltState ≤ e.MaxRPM := by
  have hact : actualRPM e i ≤ e.MaxRPM := by
    by_cases ht : 0 < e.Tau
    · have h0 := alpha_pos e.Tau i.TotalDeltaT ht
      have h1 := alpha_lt_one e.Tau i.TotalDeltaT ht
      have hR : min (i.ThrusterRPM * i.GearRatio) e.MaxRPM ≤ e.MaxRPM :=
        min_le_right _ _
      simp only [actualRPM, if_pos ht]
      calc (1 / (1 + e.Tau / clampedDt i.TotalDeltaT))
              * min (i.ThrusterRPM * i.GearRatio) e.MaxRPM
            + (1 - 1 / (1 + e.Tau / clampedDt i.TotalDeltaT)) * e.FiltState
          ≤ (1 / (1 + e.Tau / clampedDt i.TotalDeltaT)) * e.MaxRPM
              + (1 - 1 / (1 + e.Tau / clampedDt i.TotalDeltaT)) * e.MaxRPM :=
            add_le_add (mul_le_mul_of_nonneg_left hR (le_of_lt h0))
              (mul_le_mul_of_nonneg_left hf (by linarith))
        _ = e.MaxRPM := by ring
    · simp only [actualRPM, if_neg ht]
      exact min_le_right _ _
  refine ⟨by simp [rawCmdPower, hm], rfl, min_le_right _ _, hact, ?_⟩
  by_cases ht : 0 < e.Tau
  · have h := Calculate_filtState_pos e i j ht
    rw [h]
    have hfr : filterRaw e i = min (i.ThrusterRPM * i.GearRatio) e.MaxRPM := by
      simp [filterRaw, hm]
    have : (1 / (1 + e.Tau / clampedDt i.TotalDeltaT)) * filterRaw e i
        + (1 - 1 / (1 + e.Tau / clampedDt i.TotalDeltaT)) * e.FiltState
        = actualRPM e i := by
      simp only [actualRPM, if_pos ht, hfr]
    rw [this]; exact hact
  · rw [Calculate_filtState_nonpos e i j (not_lt.mp ht)]; exact hf

/-- Claim C4 witness: a concrete RPM-command configuration with throttle 2
(above 1) and thruster RPM 300 far above `maxRPM = 100`: both derived RPM
values stay at or below 100 and the power formula holds. -/
theorem c4_rpm_mode_clamped_witness :
    ((0 : ℚ) < 100) ∧ ((50 : ℚ) ≤ 100)
      ∧ rawCmdPower ⟨0, 100, 0, 50⟩ ⟨2, 1, 0, 300, 1, 10⟩
          = (|(10 : ℚ)| / 1)
              * ((cmdRPM ⟨0, 100, 0, 50⟩ ⟨2, 1, 0, 300, 1, 10⟩
                  - actualRPM ⟨0, 100, 0, 50⟩ ⟨2, 1, 0, 300, 1, 10⟩)
                * rpmtoradpsec) + 0
      ∧ cmdRPM ⟨0, 100, 0, 50⟩ ⟨2, 1, 0, 300, 1, 10⟩ ≤ 100
      ∧ actualRPM ⟨0, 100, 0, 50⟩ ⟨2, 1, 0, 300, 1, 10⟩ ≤ 100 :=
  ⟨by norm_num, by norm_num,
   (c4_rpm_mode_clamped ⟨0, 100, 0, 50⟩ ⟨2, 1, 0, 300, 1, 10⟩ 0
     (by norm_num) (by norm_num)).1,
   (c4_rpm_mode_clamped ⟨0, 100, 0, 50⟩ ⟨2, 1, 0, 300, 1, 10⟩ 0
     (by norm_num) (by norm_num)).2.2.1,
   (c4_rpm_mode_clamped ⟨0, 100, 0, 50⟩ ⟨2, 1, 0, 300, 1, 10⟩ 0
     (by norm_num) (by norm_num)).2.2.2.1⟩

theorem filtIter_succ_powerMode (e : FGElectric) (i : CalcInputs)
    (hm : e.MaxRPM = 0) (ht : 0 < e.Tau) (n : ℕ) :
    filtIter e i (n + 1)
      = (1 / (1 + e.Tau / clampedDt i.TotalDeltaT)) * i.PowerRequired
        + (1 - 1 / (1 + e.Tau / clampedDt i.TotalDeltaT)) * filtIter e i n := by
  have hstep : filtIter e i (n + 1)
      = (Calculate ⟨e.PowerMax, e.MaxRPM, e.Tau, filtIter e i n⟩ i 0).FiltState :=
    rfl
  rw [hstep,
    Calculate_filtState_pos ⟨e.PowerMax, e.MaxRPM, e.Tau, filtIter e i n⟩ i 0 ht]
  simp [filterRaw, hm]

theorem filtIter_sub_powerMode (e : FGElectric) (i : CalcInputs)
    (hm : e.MaxRPM = 0) (ht : 0 < e.Tau) (n : ℕ) :
    filtIter e i n - i.PowerRequired
      = (1 - 1 / (1 + e.Tau / clampedDt i.TotalDeltaT)) ^ n
          * (e.FiltState - i.PowerRequired) := by
  induction n with
  | zero => simp [filtIter]
  | succ n ih =>
      rw [filtIter_succ_powerMode e i hm ht n]
      have h : (1 / (1 + e.Tau / clampedDt i.TotalDeltaT)) * i.PowerRequired
          + (1 - 1 / (1 + e.Tau / clampedDt i.TotalDeltaT)) * filtIter e i n
          - i.PowerRequired
          = (1 - 1 / (1 + e.Tau / clampedDt i.TotalDeltaT))
              * (filtIter e i n - i.PowerRequired) := by ring
      rw [h, ih]; ring

/-- Claim C6: in power-command mode with filtering enabled, iterating
`Calculate` at fixed inputs makes the filter state converge monotonically to
`powerRequired`: the distance to `powerRequired` never increases, it falls
below any positive bound from some timestep on, and so does the feed-forward
correction term `powerRequired - filtered`. -/
theorem c6_filter_convergence (e : FGElectric) (i : CalcInputs)
    (hm : e.MaxRPM = 0) (ht : 0 < e.Tau) :
    (∀ n : ℕ, |filtIter e i (n + 1) - i.PowerRequired|
        ≤ |filtIter e i n - i.PowerRequired|)
      ∧ (∀ ε : ℚ, 0 < ε → ∃ N : ℕ, ∀ n : ℕ, N ≤ n →
          |filtIter e i n - i.PowerRequired| < ε)
      ∧ (∀ ε : ℚ, 0 < ε → ∃ N : ℕ, ∀ n : ℕ, N ≤ n →
          |i.PowerRequired - filtIter e i n| < ε) := by
  have h0a := alpha_pos e.Tau i.TotalDeltaT ht
  have h1a := alpha_lt_one e.Tau i.TotalDeltaT ht
  have h0 : (0 : ℚ) ≤ 1 - 1 / (1 + e.Tau / clampedDt i.TotalDeltaT) := by
    linarith
  have h1 : 1 - 1 / (1 + e.Tau / clampedDt i.TotalDeltaT) < 1 := by linarith
  have habs : ∀ n : ℕ, |filtIter e i n - i.PowerRequired|
      = (1 - 1 / (1 + e.Tau / clampedDt i.TotalDeltaT)) ^ n
          * |e.FiltState - i.PowerRequired| := by
    intro n
    rw [filtIter_sub_powerMode e i hm ht n, abs_mul, abs_pow,
      abs_of_nonneg h0]
  have hlim : ∀ ε : ℚ, 0 < ε → ∃ N : ℕ, ∀ n : ℕ, N ≤ n →
      |filtIter e i n - i.PowerRequired| < ε := by
    intro ε hε
    have hCpos : (0 : ℚ) < |e.FiltState - i.PowerRequired| + 1 :=
      lt_of_lt_of_le one_pos (by simp [abs_nonneg])
    obtain ⟨N, hN⟩ := exists_pow_lt_of_lt_one
      (div_pos hε hCpos) h1
    refine ⟨N, fun n hn => ?_⟩
    rw [habs n]
    have hmono : (1 - 1 / (1 + e.Tau / clampedDt i.TotalDeltaT)) ^ n
        ≤ (1 - 1 / (1 + e.Tau / clampedDt i.TotalDeltaT)) ^ N :=
      pow_le_pow_of_le_one h0 (le_of_lt h1) hn
    have hstep : (1 - 1 / (1 + e.Tau / clampedDt i.TotalDeltaT)) ^ n
          * |e.FiltState - i.PowerRequired|
        ≤ (1 - 1 / (1 + e.Tau / clampedDt i.TotalDeltaT)) ^ N
          * (|e.FiltState - i.PowerRequired| + 1) :=
      mul_le_mul hmono (by linarith [abs_nonneg (e.FiltState - i.PowerRequired)])
        (abs_nonneg _) (pow_nonneg h0 N)
    have hfin : (1 - 1 / (1 + e.Tau / clampedDt i.TotalDeltaT)) ^ N
        * (|e.FiltState - i.PowerRequired| + 1) < ε :=
      (lt_div_iff₀ hCpos).mp hN
    linarith
  refine ⟨fun n => ?_, hlim, fun ε hε => ?_⟩
  · rw [habs n, habs (n + 1), pow_succ]
    have hpow : (0 : ℚ)
        ≤ (1 - 1 / (1 + e.Tau / clampedDt i.TotalDeltaT)) ^ n :=
      pow_nonneg h0 n
    nlinarith [mul_nonneg (mul_nonneg hpow
      (abs_nonneg (e.FiltState - i.PowerRequired))) (le_of_lt h0a)]
  · obtain ⟨N, hN⟩ := hlim ε hε
    exact ⟨N, fun n hn => by rw [abs_sub_comm]; exact hN n hn⟩

/-- Claim C6 witness: a concrete power-command configuration with `tau = 1`,
`dt = 1`, required power 2, starting filter state 0: the instantiated
convergence statement. -/
theorem c6_filter_convergence_witness :
    ((0 : ℚ) = 0) ∧ ((0 : ℚ) < 1)
      ∧ (∀ n : ℕ, |filtIter ⟨0, 0, 1, 0⟩ ⟨0, 1, 2, 0, 1, 0⟩ (n + 1) - 2|
          ≤ |filtIter ⟨0, 0, 1, 0⟩ ⟨0, 1, 2, 0, 1, 0⟩ n - 2|)
      ∧ (∀ ε : ℚ, 0 < ε → ∃ N : ℕ, ∀ n : ℕ, N ≤ n →
          |filtIter ⟨0, 0, 1, 0⟩ ⟨0, 1, 2, 0, 1, 0⟩ n - 2| < ε)
      ∧ (∀ ε : ℚ, 0 < ε → ∃ N : ℕ, ∀ n : ℕ, N ≤ n →
          |2 - filtIter ⟨0, 0, 1, 0⟩ ⟨0, 1, 2, 0, 1, 0⟩ n| < ε) :=
  ⟨rfl, by norm_num,
   (c6_filter_convergence ⟨0, 0, 1, 0⟩ ⟨0, 1, 2, 0, 1, 0⟩ rfl (by norm_num)).1,
   (c6_filter_convergence ⟨0, 0, 1, 0⟩ ⟨0, 1, 2, 0, 1, 0⟩ rfl
     (by norm_num)).2.1,
   (c6_filter_convergence ⟨0, 0, 1, 0⟩ ⟨0, 1, 2, 0, 1, 0⟩ rfl
     (by norm_num)).2.2⟩

/-- Claim C10: `CalcFuelNeed` returns 0 for every state of the motor. -/
theorem c10_calc_fuel_need_zero (e : FGElectric) : CalcFuelNeed e = 0 := rfl
